import Mathlib

/-!
Verification of the vetis HTTP server against its specification.

Each namespace below is a shallow embedding of one component of the
repository, translated from the Rust sources:

* `VirtualHostRoute` — `VirtualHost::route` / `VirtualHost::add_path`
  (src/vetis/src/server/virtual_host.rs)
* `ServiceLookup` — the per-request virtual host lookup of the TCP and
  UDP service functions (src/src/server/conn/tcp/http.rs,
  src/src/server/conn/udp/http.rs)
* `TcpAccept` — one iteration of the TCP accept loop
  (src/src/server/conn/tcp/http.rs, `TcpServer::handle_connections`)
* `StaticFiles` — `StaticPath::serve_file` / `StaticPath::serve_metadata`
  (src/vetis/src/server/virtual_host/path/static_files/mod.rs)
* `Proxy` — `ProxyPath::handle` (src/vetis/src/server/path.rs)
* `Wsgi` — the response assembly of `WsgiWorker::handle`
  (src/vetis/src/server/virtual_host/path/interface/python/wsgi/mod.rs)
* `IndexFile` — `StaticPath::new` / `StaticPath::serve_index_file`
  (src/vetis/src/server/virtual_host/path/static_files/mod.rs)
-/

deriving instance DecidableEq for Except

/-- ASCII lower-casing of one character. -/
def asciiLower (c : Char) : Char :=
  if 65 ≤ c.toNat ∧ c.toNat ≤ 90 then Char.ofNat (c.toNat + 32) else c

/-- ASCII lower-casing of a string, the normalization applied to hostnames
and header names. -/
def lowerStr (s : String) : String := String.mk (s.data.map asciiLower)

namespace VirtualHostRoute

/-- Outcome of `VirtualHost::route`: either the request is dispatched to a
registered path handler (identified here by a numeric id) or a literal
response is produced. -/
inductive RouteResult where
  | handled (p : Nat)
  | response (status : Nat) (body : String)
  deriving DecidableEq

/-- `VirtualHost::add_path` inserts into `paths: HashMap<String, HostPath>`
keyed by the path's uri; `HashMap::insert` replaces any entry already stored
under the same key.  The map is modelled as an association list where insert
removes the old binding. -/
def add_path (paths : List (String × Nat)) (uri : String) (p : Nat) :
    List (String × Nat) :=
  (uri, p) :: paths.filter (fun q => q.1 ≠ uri)

/-- `HashMap::get`: exact-key lookup. -/
def pathsGet (paths : List (String × Nat)) (k : String) : Option Nat :=
  (paths.find? (fun q => q.1 = k)).map (fun q => q.2)

/-- `VirtualHost::route` (src/vetis/src/server/virtual_host.rs lines
132-147): look the request's URI path up in the `paths` map; dispatch to the
stored path if present, else answer 404 "Not Found". -/
def route (paths : List (String × Nat)) (uriPath : String) : RouteResult :=
  match pathsGet paths uriPath with
  | some p => RouteResult.handled p
  | none => RouteResult.response 404 "Not Found"

end VirtualHostRoute

namespace ServiceLookup

/-- Outcome of the per-request service function: dispatch to a virtual host
(identified by a numeric id) or a literal response. -/
inductive Outcome where
  | served (vh : Nat)
  | response (status : Nat) (body : String)
  deriving DecidableEq

/-- The virtual-host registry `HashMap<String, _>`: exact string lookup. -/
def registryGet (reg : List (String × Nat)) (k : String) : Option Nat :=
  (reg.find? (fun e => e.1 = k)).map (fun e => e.2)

/-- The TCP service function (src/src/server/conn/tcp/http.rs,
`ServerHandler::handle` lines 224-268): take `req.uri().authority()`; if
absent answer 400, else look the authority string up in the registry as-is
and answer 404 "Virtual host not found" on a miss. -/
def tcpService (reg : List (String × Nat)) (uriAuthority : Option String) :
    Outcome :=
  match uriAuthority with
  | some host =>
    match registryGet reg host with
    | some vh => Outcome.served vh
    | none => Outcome.response 404 "Virtual host not found"
  | none => Outcome.response 400 "Host header not found in request"

/-- The UDP/HTTP3 service function (src/src/server/conn/udp/http.rs,
`ServerHandler::handle` lines 167-228): same shape, but the key is the
`Host` header. -/
def udpService (reg : List (String × Nat)) (hostHeader : Option String) :
    Outcome :=
  match hostHeader with
  | some host =>
    match registryGet reg host with
    | some vh => Outcome.served vh
    | none => Outcome.response 404 "Virtual host not found"
  | none => Outcome.response 400 "Host header not found in request"

/-- Modelled from the spec's words, for comparison with the code: the
claimed lookup authority, "SNI if available, else the URI authority, else
the Host header, lowercased". -/
def specLookupAuthority (sni uriAuthority hostHeader : Option String) :
    Option String :=
  ((sni.orElse (fun _ => uriAuthority)).orElse (fun _ => hostHeader)).map
    lowerStr

end ServiceLookup

namespace TcpAccept

/-- The accept loop peeks into a buffer `[0; 16]` with `peek_exact`. -/
def peekBufLen : Nat := 16

/-- `peeked.starts_with(&[0x16, 0x03])`. -/
def isTlsPeeked (peeked : List Nat) : Bool :=
  List.isPrefixOf [0x16, 0x03] peeked

/-- One event observed by an iteration of the accept loop: either `accept`
fails, or a connection arrives with a given `set_nodelay` outcome, the bytes
the client will have sent before the peek resolves, and the outcome a TLS
handshake would have. -/
inductive AcceptEvent where
  | acceptErr
  | conn (nodelayOk : Bool) (available : List Nat) (handshakeOk : Bool)

/-- What an iteration of the accept loop does with the event. -/
inductive IterResult where
  | continueLoop
  | panicked
  | servedTls
  | servedPlain
  deriving DecidableEq

/-- One iteration of the accept loop in `TcpServer::handle_connections`
(src/src/server/conn/tcp/http.rs lines 169-216): an `accept` error is
logged and the loop continues; a `set_nodelay` error likewise; then
`peek_exact` on a 16-byte buffer is `.unwrap()`ed, so a stream with fewer
than 16 bytes available panics the accept task; with 16 bytes peeked, the
stream is TLS iff the peeked bytes start with 0x16, 0x03, a failed TLS
handshake is logged and the loop continues, and otherwise the stream is
served (TLS or cleartext). -/
def acceptIter : AcceptEvent → IterResult
  | AcceptEvent.acceptErr => IterResult.continueLoop
  | AcceptEvent.conn false _ _ => IterResult.continueLoop
  | AcceptEvent.conn true avail hsOk =>
    if avail.length < peekBufLen then IterResult.panicked
    else
      if isTlsPeeked (avail.take peekBufLen) then
        if hsOk then IterResult.servedTls else IterResult.continueLoop
      else IterResult.servedPlain

end TcpAccept

namespace StaticFiles

/-- The error variants of `VirtualHostError::File` that the static file
engine produces. -/
inductive FileErr where
  | notFound
  | invalidMetadata
  | invalidRange
  deriving DecidableEq

/-- A response: status, header list as built by the code, body bytes. -/
structure Resp where
  status : Nat
  headers : List (String × String)
  body : List Nat
  deriving DecidableEq

/-- Rust `str::split_once(sep)`: split at the first occurrence of the
separator character, or `none` when it does not occur. -/
def splitOnce (sep : Char) : List Char → Option (List Char × List Char)
  | [] => none
  | c :: cs =>
    if c = sep then some ([], cs)
    else
      match splitOnce sep cs with
      | some (pre, post) => some (c :: pre, post)
      | none => none

/-- Numeric value of a run of decimal digit characters. -/
def digitsVal (s : List Char) : Nat :=
  s.foldl (fun acc c => acc * 10 + (c.toNat - 48)) 0

/-- Rust `str::parse::<u64>()`: an optional leading `+`, then one or more
decimal digits, value below 2^64. -/
def parseU64 (s : List Char) : Option Nat :=
  let t := match s with
    | '+' :: rest => rest
    | other => other
  if t = [] then none
  else if t.all Char.isDigit then
    if digitsVal t < 2 ^ 64 then some (digitsVal t) else none
  else none

/-- The parsing stage of `StaticPath::serve_file` for a `Range` header
value: `split_once("=")`, the unit must be `bytes`, then `split_once("-")`
and both endpoints parse as `u64`.  Any failure is `FileError::InvalidRange`
in the code, so a `none` here stands for that error. -/
def parseRange (r : List Char) : Option (Nat × Nat) :=
  match splitOnce '=' r with
  | none => none
  | some (unit, rest) =>
    if unit = "bytes".data then
      match splitOnce '-' rest with
      | some (s, e) =>
        match parseU64 s, parseU64 e with
        | some a, some b => some (a, b)
        | _, _ => none
      | none => none
    else none

/-- The 200 response that `serve_file` builds when no partial content is
produced: headers `Accept-Ranges: bytes` and `Content-Length: <filesize>`,
body streamed from the start of the file. -/
def fullResp (content : List Nat) : Resp :=
  { status := 200,
    headers := [("accept-ranges", "bytes"),
                ("content-length", toString content.length)],
    body := content }

/-- `StaticPath::serve_file` (src/vetis/src/server/virtual_host/path/
static_files/mod.rs lines 138-216), for a file that opened successfully
with content `content`.  A present `Range` header is parsed as above; then
`start > end || start >= filesize` answers 416 with empty body and no extra
headers, `start < end && end < filesize` (with the seek succeeding) answers
206 whose body streams from offset `start` to end of file, and every other
case falls through to the plain 200 response. -/
def serve_file (content : List Nat) (range : Option (List Char)) :
    Except FileErr Resp :=
  let filesize := content.length
  match range with
  | none => Except.ok (fullResp content)
  | some r =>
    match parseRange r with
    | none => Except.error FileErr.invalidRange
    | some (start, endB) =>
      if start > endB ∨ start ≥ filesize then
        Except.ok { status := 416, headers := [], body := [] }
      else if start < endB ∧ endB < filesize then
        Except.ok { status := 206, headers := [], body := content.drop start }
      else
        Except.ok (fullResp content)

/-- `StaticPath::serve_metadata` (same file, lines 218-295), for a file that
opened successfully: status 200, headers `Content-Length`, `Last-Modified`
(the formatted modification date is taken as a parameter, the formatter
living outside this component) and, when the mime lookup by filename
yields one, `Content-Type`; the body is the empty string. -/
def serve_metadata (content : List Nat) (lastModified : String)
    (mime : Option String) : Except FileErr Resp :=
  let base := [("content-length", toString content.length),
               ("last-modified", lastModified)]
  let headers := match mime with
    | some m => base ++ [("content-type", m)]
    | none => base
  Except.ok { status := 200, headers := headers, body := [] }

end StaticFiles

namespace Proxy

/-- The downstream request parts that `ProxyPath::handle` consumes. -/
structure DownReq where
  method : String
  path : String
  headers : List (String × String)
  body : List Nat
  deriving DecidableEq

/-- The upstream request handed to the pooled HTTP client. -/
structure UpReq where
  url : String
  method : String
  headers : List (String × String)
  body : List Nat
  deriving DecidableEq

/-- The parts of the upstream response. -/
structure UpResp where
  status : Nat
  headers : List (String × String)
  body : List Nat
  deriving DecidableEq

/-- `request_parts.uri.path().strip_prefix(uri.as_ref()).unwrap_or("")`
(src/vetis/src/server/path.rs lines 289-293): the request path with the
matched prefix removed, or the empty string when the registered uri is not
a prefix of the path. -/
def proxyTail (uriArg : String) (path : String) : String :=
  if List.isPrefixOf uriArg.data path.data then
    String.mk (path.data.drop uriArg.data.length)
  else ""

/-- The upstream request built by `ProxyPath::handle` (src/vetis/src/server/
path.rs lines 282-328): the url is the configured target concatenated with
the tail, the method and headers come from the downstream request, and the
downstream body is never attached (the builder is finished without a body;
src/vetis/src/server/virtual_host/path/proxy/mod.rs line 93 carries the
`TODO: Set body` marker). -/
def buildUpstreamRequest (target : String) (uriArg : String) (req : DownReq) :
    UpReq :=
  { url := target ++ proxyTail uriArg req.path,
    method := req.method,
    headers := req.headers,
    body := [] }

/-- The downstream response assembled from the upstream response parts:
status, headers and body pass through. -/
def mapUpstreamResponse (uresp : UpResp) : StaticFiles.Resp :=
  { status := uresp.status, headers := uresp.headers, body := uresp.body }

/-- `ProxyPath::handle`, with the pooled client abstracted as a function
from upstream request to upstream response or error: build the upstream
request, execute it, map the response parts through; a client error becomes
a `Proxy` error. -/
def proxyHandle (exec : UpReq → Except String UpResp) (target : String)
    (uriArg : String) (req : DownReq) : Except String StaticFiles.Resp :=
  match exec (buildUpstreamRequest target uriArg req) with
  | Except.ok uresp => Except.ok (mapUpstreamResponse uresp)
  | Except.error e => Except.error e

end Proxy

namespace Wsgi

/-- Rust `str::split_whitespace().next()`: the first maximal run of
non-whitespace characters, or `none` for an all-whitespace string. -/
def firstToken (s : List Char) : Option (List Char) :=
  match s.dropWhile (fun c => c.isWhitespace) with
  | [] => none
  | rest => some (rest.takeWhile (fun c => ¬ c.isWhitespace))

/-- `str::parse::<http::StatusCode>()`: exactly three decimal digits with
value at least 100. -/
def parseStatusCode (s : List Char) : Option Nat :=
  if s.length = 3 ∧ s.all Char.isDigit then
    if 100 ≤ StaticFiles.digitsVal s then some (StaticFiles.digitsVal s)
    else none
  else none

/-- The `fold` over the header pairs received from `start_response`:
`HeaderMap::insert` keyed by the header name (normalized to lower case by
`HeaderName::from_bytes`), replacing any earlier value for the same name. -/
def insertHeader (m : List (String × String)) (kv : String × String) :
    List (String × String) :=
  m.filter (fun e => e.1 ≠ lowerStr kv.1) ++ [(lowerStr kv.1, kv.2)]

def foldHeaders (hdrs : List (String × String)) : List (String × String) :=
  hdrs.foldl insertHeader []

/-- The response assembly of `WsgiWorker::handle` (src/vetis/src/server/
virtual_host/path/interface/python/wsgi/mod.rs lines 97-237) when the
embedded application call succeeds: the iterator returned by the
application is fully drained into the list `chunks` of byte chunks, but
the body kept is `bytes.first().cloned().unwrap_or_default()` — only the
first chunk; the status line from the `start_response` oneshot is split at
whitespace and its first token parsed as a status code; the header pairs
are folded into a header map. -/
def wsgiHandle (statusLine : String) (hdrs : List (String × String))
    (chunks : List (List Nat)) : Except String StaticFiles.Resp :=
  let body := (chunks.head?).getD []
  match firstToken statusLine.data with
  | none => Except.error "Invalid status message"
  | some tok =>
    match parseStatusCode tok with
    | none => Except.error "Invalid status code"
    | some code =>
      Except.ok { status := code, headers := foldHeaders hdrs, body := body }

end Wsgi

namespace IndexFile

/-- A snapshot of the filesystem: which paths exist, and the content of the
files that can be opened and read. -/
structure Fs where
  pathExists : String → Bool
  content : String → Option (List Nat)

/-- `PathBuf::join` for the directory/file pairs used here. -/
def joinPath (dir f : String) : String := dir ++ "/" ++ f

/-- The `index_file` field recorded by `StaticPath::new` (src/vetis/src/
server/virtual_host/path/static_files/mod.rs lines 45-65): when
`index_files` is configured, the first entry whose join with the directory
exists in the construction-time filesystem snapshot; otherwise `none`. -/
def newIndexFile (indexFiles : Option (List String)) (directory : String)
    (fs : Fs) : Option String :=
  match indexFiles with
  | some l => l.find? (fun f => fs.pathExists (joinPath directory f))
  | none => none

/-- Spec-side restatement of "the first entry of index_files that exists on
disk at that moment", as plain recursion, to compare with the `find?` the
code uses. -/
def firstExisting (fs : Fs) (directory : String) : List String → Option String
  | [] => none
  | f :: rest =>
    if fs.pathExists (joinPath directory f) then some f
    else firstExisting fs directory rest

/-- `StaticPath::serve_index_file` (same file, lines 297-309), evaluated
against the filesystem snapshot `fs2` current at request time: when an
index file name was recorded at construction, serve
`directory/<recorded>`; opening it fails with `NotFound` when the file is
gone; when no name was recorded, fail with `NotFound` regardless of what
exists now. -/
def serve_index_file (recorded : Option String) (directory : String)
    (fs2 : Fs) : Except StaticFiles.FileErr StaticFiles.Resp :=
  match recorded with
  | some f =>
    match fs2.content (joinPath directory f) with
    | some c => StaticFiles.serve_file c none
    | none => Except.error StaticFiles.FileErr.notFound
  | none => Except.error StaticFiles.FileErr.notFound

end IndexFile

section Helpers

/-- Looking a key up after filtering out the bindings of a different key
changes nothing. -/
theorem find?_filter_ne (ps : List (String × Nat)) (u q : String)
    (h : q ≠ u) :
    (ps.filter (fun e => e.1 ≠ u)).find? (fun e => e.1 = q) =
      ps.find? (fun e => e.1 = q) := by
  induction ps with
  | nil => rfl
  | cons e rest ih =>
    rw [List.filter_cons]
    by_cases he : e.1 = u
    · have heq : ¬ (e.1 = q) := by
        rw [he]
        exact fun hq => h hq.symm
      rw [if_neg (by simpa using he),
        List.find?_cons_of_neg _ (by simpa using heq)]
      exact ih
    · by_cases heq : e.1 = q
      · rw [if_pos (by simpa using he),
          List.find?_cons_of_pos _ (by simpa using heq),
          List.find?_cons_of_pos _ (by simpa using heq)]
      · rw [if_pos (by simpa using he),
          List.find?_cons_of_neg _ (by simpa using heq),
          List.find?_cons_of_neg _ (by simpa using heq)]
        exact ih

/-- The `find?` used by `StaticPath::new` is the first list entry whose
join with the directory exists. -/
theorem find?_eq_firstExisting (fs : IndexFile.Fs) (directory : String)
    (l : List String) :
    l.find? (fun f => fs.pathExists (IndexFile.joinPath directory f)) =
      IndexFile.firstExisting fs directory l := by
  induction l with
  | nil => rfl
  | cons f rest ih =>
    by_cases hf : fs.pathExists (IndexFile.joinPath directory f)
    · simp [IndexFile.firstExisting, hf, List.find?_cons_of_pos]
    · simp [IndexFile.firstExisting, hf, List.find?_cons_of_neg]
      exact ih

end Helpers

/-- C1 counterexample: with the single path "/a" registered, the registered
URI "/a" is a prefix of the request path "/a/b", yet `route` answers 404
"Not Found" instead of selecting that path — routing is by exact equality,
not longest prefix. -/
theorem c1_counterexample :
    List.isPrefixOf ("/a").data ("/a/b").data = true ∧
    VirtualHostRoute.route (VirtualHostRoute.add_path [] "/a" 0) "/a/b" =
      VirtualHostRoute.RouteResult.response 404 "Not Found" := by decide

/-- C1 (amended): `route` selects the registered path whose URI is exactly
equal to the request's URI path — the most recent `add_path` under that URI,
since `HashMap::insert` replaces — and returns 404 "Not Found" when no
registered URI equals the request path, even when one is a proper prefix of
it. -/
theorem c1_route_exact (ps : List (String × Nat)) (u q : String) (v : Nat) :
    VirtualHostRoute.route (VirtualHostRoute.add_path ps u v) u =
      VirtualHostRoute.RouteResult.handled v ∧
    (q ≠ u → VirtualHostRoute.route (VirtualHostRoute.add_path ps u v) q =
      VirtualHostRoute.route ps q) ∧
    ((∀ e ∈ ps, e.1 ≠ q) → VirtualHostRoute.route ps q =
      VirtualHostRoute.RouteResult.response 404 "Not Found") := by
  refine ⟨?_, ?_, ?_⟩
  · simp [VirtualHostRoute.route, VirtualHostRoute.add_path,
      VirtualHostRoute.pathsGet, List.find?_cons_of_pos]
  · intro hq
    have hne : ¬ (((u, v) : String × Nat).1 = q) := fun h => hq h.symm
    simp only [VirtualHostRoute.route, VirtualHostRoute.add_path,
      VirtualHostRoute.pathsGet]
    rw [List.find?_cons_of_neg _ (by simpa using hne),
      find?_filter_ne ps u q hq]
  · intro hall
    have : ps.find? (fun e => e.1 = q) = none := by
      rw [List.find?_eq_none]
      intro e he
      simpa using hall e he
    simp [VirtualHostRoute.route, VirtualHostRoute.pathsGet, this]

/-- C1 witness: concrete instances of the three amended properties. -/
theorem c1_route_exact_witness :
    VirtualHostRoute.route (VirtualHostRoute.add_path [("/x", 1)] "/a" 0) "/a" =
      VirtualHostRoute.RouteResult.handled 0 ∧
    VirtualHostRoute.route (VirtualHostRoute.add_path [("/x", 1)] "/a" 0) "/b" =
      VirtualHostRoute.route [("/x", 1)] "/b" ∧
    VirtualHostRoute.route [("/x", 1)] "/b" =
      VirtualHostRoute.RouteResult.response 404 "Not Found" :=
  ⟨(c1_route_exact [("/x", 1)] "/a" "/b" 0).1,
   (c1_route_exact [("/x", 1)] "/a" "/b" 0).2.1 (by decide),
   (c1_route_exact [("/x", 1)] "/a" "/b" 0).2.2 (by decide)⟩

/-- C2 counterexample: registry holding "a.test", a TLS request whose SNI is
"a.test" while its URI authority is "b.test".  The claimed key (SNI first)
is "a.test", which the registry holds, yet the TCP service function keys by
the URI authority alone and answers 404 "Virtual host not found". -/
theorem c2_counterexample :
    ServiceLookup.specLookupAuthority (some "a.test") (some "b.test") none =
      some "a.test" ∧
    ServiceLookup.registryGet [("a.test", 7)] "a.test" = some 7 ∧
    ServiceLookup.tcpService [("a.test", 7)] (some "b.test") =
      ServiceLookup.Outcome.response 404 "Virtual host not found" := by decide

/-- C2 (amended): the TCP service function keys the registry lookup by the
request URI's authority alone and the UDP/HTTP3 service function by the
`Host` header alone — no SNI, no lower-casing, no port in the key; a missing
key yields 400 "Host header not found in request", a present but unmatched
key yields 404 "Virtual host not found", and a matched key dispatches to
that virtual host. -/
theorem c2_service_lookup (reg : List (String × Nat)) (a : String) (vh : Nat) :
    ServiceLookup.tcpService reg none =
      ServiceLookup.Outcome.response 400 "Host header not found in request" ∧
    ServiceLookup.udpService reg none =
      ServiceLookup.Outcome.response 400 "Host header not found in request" ∧
    (ServiceLookup.registryGet reg a = some vh →
      ServiceLookup.tcpService reg (some a) = ServiceLookup.Outcome.served vh ∧
      ServiceLookup.udpService reg (some a) = ServiceLookup.Outcome.served vh) ∧
    (ServiceLookup.registryGet reg a = none →
      ServiceLookup.tcpService reg (some a) =
        ServiceLookup.Outcome.response 404 "Virtual host not found" ∧
      ServiceLookup.udpService reg (some a) =
        ServiceLookup.Outcome.response 404 "Virtual host not found") := by
  refine ⟨rfl, rfl, ?_, ?_⟩
  · intro h
    constructor
    · simp [ServiceLookup.tcpService, h]
    · simp [ServiceLookup.udpService, h]
  · intro h
    constructor
    · simp [ServiceLookup.tcpService, h]
    · simp [ServiceLookup.udpService, h]

/-- C2 witness: the amended lookup behaviour at a concrete registry. -/
theorem c2_service_lookup_witness :
    ServiceLookup.tcpService [("a.test", 7)] (some "a.test") =
      ServiceLookup.Outcome.served 7 ∧
    ServiceLookup.udpService [("a.test", 7)] (some "c.test") =
      ServiceLookup.Outcome.response 404 "Virtual host not found" :=
  ⟨((c2_service_lookup [("a.test", 7)] "a.test" 7).2.2.1 (by decide)).1,
   ((c2_service_lookup [("a.test", 7)] "c.test" 7).2.2.2 (by decide)).2⟩

/-- C3 counterexample: a connection whose client has sent exactly the two
bytes 0x16, 0x03.  Under the claim two peeked bytes suffice and this stream
is classified as TLS; the code instead peeks a 16-byte buffer with
`peek_exact` and `.unwrap()`s, so the iteration panics. -/
theorem c3_counterexample :
    TcpAccept.peekBufLen = 16 ∧
    TcpAccept.acceptIter (TcpAccept.AcceptEvent.conn true [0x16, 0x03] true) =
      TcpAccept.IterResult.panicked := by decide

/-- C3 (amended): the accept loop peeks exactly 16 bytes; given at least 16
available bytes (and a handshake that would succeed), the stream is served
as TLS iff the first peeked byte is 0x16 and the second is 0x03, and is
served as cleartext otherwise. -/
theorem c3_tls_classification (avail : List Nat)
    (h : TcpAccept.peekBufLen ≤ avail.length) :
    (TcpAccept.acceptIter (TcpAccept.AcceptEvent.conn true avail true) =
        TcpAccept.IterResult.servedTls ↔
      avail.head? = some 0x16 ∧ avail.tail.head? = some 0x03) ∧
    (TcpAccept.acceptIter (TcpAccept.AcceptEvent.conn true avail true) =
        TcpAccept.IterResult.servedPlain ↔
      ¬ (avail.head? = some 0x16 ∧ avail.tail.head? = some 0x03)) := by
  match avail, h with
  | a :: b :: t, h =>
    have hlen : ¬ ((a :: b :: t).length < TcpAccept.peekBufLen) := by
      simpa using h
    have htake : (a :: b :: t).take TcpAccept.peekBufLen =
        a :: b :: t.take 14 := by
      simp [TcpAccept.peekBufLen]
    simp only [TcpAccept.acceptIter, if_neg hlen, htake,
      TcpAccept.isTlsPeeked, List.isPrefixOf, Bool.and_eq_true, beq_iff_eq,
      List.head?, List.tail]
    by_cases ha : a = 0x16
    · by_cases hb : b = 0x03
      · simp [ha, hb, List.isPrefixOf]
      · simp [ha, hb, List.isPrefixOf]
        exact fun h => hb h.symm
    · simp [ha, List.isPrefixOf]
      intro h
      exact absurd h.symm ha

/-- C3 witness: a 16-byte TLS-looking peek is served as TLS. -/
theorem c3_tls_classification_witness :
    TcpAccept.acceptIter
      (TcpAccept.AcceptEvent.conn true ([0x16, 0x03] ++ List.replicate 14 0) true) =
      TcpAccept.IterResult.servedTls :=
  ((c3_tls_classification ([0x16, 0x03] ++ List.replicate 14 0)
    (by decide)).1).mpr (by decide)

/-- C4: the accept-loop iteration evaluated at the failing input — a
connection whose client closes before 16 bytes arrive makes the
`.unwrap()` of `peek_exact` panic, aborting the accept loop, while an
`accept` error and a failed TLS handshake are indeed survived. -/
theorem c4_accept_loop_step :
    TcpAccept.acceptIter (TcpAccept.AcceptEvent.conn true [] true) =
      TcpAccept.IterResult.panicked ∧
    TcpAccept.acceptIter TcpAccept.AcceptEvent.acceptErr =
      TcpAccept.IterResult.continueLoop ∧
    TcpAccept.acceptIter
      (TcpAccept.AcceptEvent.conn true ([0x16, 0x03] ++ List.replicate 14 0) false) =
      TcpAccept.IterResult.continueLoop := by decide

/-- C5 counterexample: a 3-byte file with `Range: bytes=0-1` gets a 206
whose body is the whole remainder of the file (3 bytes), not the requested
slice of length end − start + 1 = 2; and `Range: bytes=1-1` — a closed
in-bounds range with start = end — falls through to a plain 200 with the
full file instead of a 206. -/
theorem c5_counterexample :
    StaticFiles.serve_file [10, 20, 30] (some ("bytes=0-1").data) =
      Except.ok { status := 206, headers := [], body := [10, 20, 30] } ∧
    ([10, 20, 30] : List Nat).length ≠ 1 - 0 + 1 ∧
    StaticFiles.serve_file [10, 20, 30] (some ("bytes=1-1").data) =
      Except.ok (StaticFiles.fullResp [10, 20, 30]) := by decide

/-- C5 (amended): for a parsed `Range: bytes=start-end` with
start < end < size(F) the response is 206 and its body streams from offset
`start` to end of file — length size(F) − start, not end − start + 1; for
start = end < size(F) the response falls through to a plain 200 with the
whole file. -/
theorem c5_range_get (content : List Nat) (r r2 : List Char)
    (start endB s2 : Nat) :
    (StaticFiles.parseRange r = some (start, endB) → start < endB →
      endB < content.length →
      StaticFiles.serve_file content (some r) =
        Except.ok { status := 206, headers := [],
                    body := content.drop start } ∧
      (content.drop start).length = content.length - start) ∧
    (StaticFiles.parseRange r2 = some (s2, s2) → s2 < content.length →
      StaticFiles.serve_file content (some r2) =
        Except.ok (StaticFiles.fullResp content)) := by
  constructor
  · intro hparse h1 h2
    have hnot : ¬ (start > endB ∨ start ≥ content.length) := by omega
    refine ⟨?_, List.length_drop start content⟩
    simp only [StaticFiles.serve_file, hparse]
    rw [if_neg hnot, if_pos ⟨h1, h2⟩]
  · intro hparse hlt
    have hnot : ¬ (s2 > s2 ∨ s2 ≥ content.length) := by omega
    have hnot2 : ¬ (s2 < s2 ∧ s2 < content.length) := by omega
    simp only [StaticFiles.serve_file, hparse]
    rw [if_neg hnot, if_neg hnot2]

/-- C5 witness: both amended behaviours at a concrete 3-byte file. -/
theorem c5_range_get_witness :
    StaticFiles.serve_file [1, 2, 3] (some ("bytes=0-1").data) =
      Except.ok { status := 206, headers := [], body := [1, 2, 3] } ∧
    StaticFiles.serve_file [1, 2, 3] (some ("bytes=1-1").data) =
      Except.ok (StaticFiles.fullResp [1, 2, 3]) :=
  ⟨((c5_range_get [1, 2, 3] ("bytes=0-1").data ("bytes=1-1").data 0 1 1).1
      (by decide) (by decide) (by decide)).1,
   (c5_range_get [1, 2, 3] ("bytes=0-1").data ("bytes=1-1").data 0 1 1).2
      (by decide) (by decide)⟩

/-- C6: for every parsed `Range: bytes=start-end` with start > end or
start ≥ size(F), `serve_file` answers 416 with empty body (and no extra
headers). -/
theorem c6_range_unsatisfiable (content : List Nat) (r : List Char)
    (start endB : Nat)
    (hparse : StaticFiles.parseRange r = some (start, endB))
    (hbad : start > endB ∨ start ≥ content.length) :
    StaticFiles.serve_file content (some r) =
      Except.ok { status := 416, headers := [], body := [] } := by
  simp only [StaticFiles.serve_file, hparse]
  rw [if_pos hbad]

/-- C6 witness: `bytes=5-2` (start > end) and `bytes=7-9` (start ≥ size)
against a 3-byte file. -/
theorem c6_range_unsatisfiable_witness :
    StaticFiles.serve_file [1, 2, 3] (some ("bytes=5-2").data) =
      Except.ok { status := 416, headers := [], body := [] } ∧
    StaticFiles.serve_file [1, 2, 3] (some ("bytes=7-9").data) =
      Except.ok { status := 416, headers := [], body := [] } :=
  ⟨c6_range_unsatisfiable [1, 2, 3] ("bytes=5-2").data 5 2 (by decide)
      (by decide),
   c6_range_unsatisfiable [1, 2, 3] ("bytes=7-9").data 7 9 (by decide)
      (by decide)⟩

/-- C7 counterexample: for a concrete 2-byte file, a GET answers with
headers Accept-Ranges and Content-Length while a HEAD answers with
Content-Length, Last-Modified and Content-Type — the Accept-Ranges header a
GET carries is absent from the HEAD response, so HEAD does not return the
same header set a GET would. -/
theorem c7_counterexample :
    StaticFiles.serve_file [104, 105] none =
      Except.ok (StaticFiles.fullResp [104, 105]) ∧
    StaticFiles.serve_metadata [104, 105] "Thu, 01 Jan 2026 00:00:00 GMT"
        (some "text/html") =
      Except.ok { status := 200,
                  headers := [("content-length", "2"),
                              ("last-modified", "Thu, 01 Jan 2026 00:00:00 GMT"),
                              ("content-type", "text/html")],
                  body := [] } ∧
    ("accept-ranges", "bytes") ∈ (StaticFiles.fullResp [104, 105]).headers ∧
    ("accept-ranges", "bytes") ∉
      ([("content-length", "2"),
        ("last-modified", "Thu, 01 Jan 2026 00:00:00 GMT"),
        ("content-type", "text/html")] : List (String × String)) := by decide

/-- C7 (amended): a HEAD request answers 200 with a zero-byte body and the
same Content-Length value a GET would carry, but not the same header set:
the GET response carries Accept-Ranges and Content-Length while the HEAD
response carries Content-Length, Last-Modified and Content-Type, and the
GET's Accept-Ranges header never appears among the HEAD headers. -/
theorem c7_head_vs_get (content : List Nat) (lm mt : String) :
    StaticFiles.serve_file content none =
      Except.ok (StaticFiles.fullResp content) ∧
    StaticFiles.serve_metadata content lm (some mt) =
      Except.ok { status := 200,
                  headers := [("content-length", toString content.length),
                              ("last-modified", lm),
                              ("content-type", mt)],
                  body := [] } ∧
    ("content-length", toString content.length) ∈
      (StaticFiles.fullResp content).headers ∧
    ("accept-ranges", "bytes") ∈ (StaticFiles.fullResp content).headers ∧
    ("accept-ranges", "bytes") ∉
      ([("content-length", toString content.length), ("last-modified", lm),
        ("content-type", mt)] : List (String × String)) := by
  refine ⟨rfl, rfl, by simp [StaticFiles.fullResp],
    by simp [StaticFiles.fullResp], ?_⟩
  intro hmem
  simp only [List.mem_cons, List.not_mem_nil, or_false, Prod.mk.injEq] at hmem
  rcases hmem with ⟨h, _⟩ | ⟨h, _⟩ | ⟨h, _⟩ <;> exact absurd h (by decide)

/-- C7 witness: the amended HEAD/GET relation at a concrete 2-byte file. -/
theorem c7_head_vs_get_witness :
    StaticFiles.serve_file [104, 105] none =
      Except.ok (StaticFiles.fullResp [104, 105]) ∧
    StaticFiles.serve_metadata [104, 105] "Thu, 01 Jan 2026 00:00:00 GMT"
        (some "text/plain") =
      Except.ok { status := 200,
                  headers := [("content-length", "2"),
                              ("last-modified", "Thu, 01 Jan 2026 00:00:00 GMT"),
                              ("content-type", "text/plain")],
                  body := [] } :=
  ⟨(c7_head_vs_get [104, 105] "Thu, 01 Jan 2026 00:00:00 GMT" "text/plain").1,
   (c7_head_vs_get [104, 105] "Thu, 01 Jan 2026 00:00:00 GMT" "text/plain").2.1⟩

/-- C8 counterexample: a downstream POST with body bytes [1, 2, 3] produces
an upstream request whose body is empty — the downstream body is never
attached to the upstream request (the builder carries a `TODO: Set body`),
so the upstream request is not built from the downstream body. -/
theorem c8_counterexample :
    Proxy.buildUpstreamRequest "http://upstream:9000" "/api"
        { method := "POST", path := "/api/users", headers := [("x", "y")],
          body := [1, 2, 3] } =
      { url := "http://upstream:9000/users", method := "POST",
        headers := [("x", "y")], body := [] } ∧
    ([] : List Nat) ≠ [1, 2, 3] := by decide

/-- C8 (amended): the upstream request is built from the downstream method
and headers and addressed to the configured target concatenated with the
tail (the request path with the matched prefix stripped), but the
downstream body is not forwarded (the upstream request is built without a
body); the upstream response's status, headers and body are passed through
unchanged to the downstream response. -/
theorem c8_proxy_forwarding (exec : Proxy.UpReq → Except String Proxy.UpResp)
    (target uriArg : String) (req : Proxy.DownReq) (uresp : Proxy.UpResp)
    (hexec : exec (Proxy.buildUpstreamRequest target uriArg req) =
      Except.ok uresp) :
    (Proxy.buildUpstreamRequest target uriArg req).method = req.method ∧
    (Proxy.buildUpstreamRequest target uriArg req).headers = req.headers ∧
    (Proxy.buildUpstreamRequest target uriArg req).body = [] ∧
    (List.isPrefixOf uriArg.data req.path.data = true →
      (Proxy.buildUpstreamRequest target uriArg req).url =
        target ++ String.mk (req.path.data.drop uriArg.data.length)) ∧
    Proxy.proxyHandle exec target uriArg req =
      Except.ok { status := uresp.status, headers := uresp.headers,
                  body := uresp.body } := by
  refine ⟨rfl, rfl, rfl, ?_, ?_⟩
  · intro hpre
    simp [Proxy.buildUpstreamRequest, Proxy.proxyTail, hpre]
  · simp [Proxy.proxyHandle, hexec, Proxy.mapUpstreamResponse]

/-- C8 witness: the amended forwarding behaviour against a concrete
upstream. -/
theorem c8_proxy_forwarding_witness :
    (Proxy.buildUpstreamRequest "http://u:9000" "/api"
        { method := "GET", path := "/api/users/42", headers := [],
          body := [7] }).url = "http://u:9000" ++ String.mk ("/api/users/42".data.drop "/api".data.length) ∧
    Proxy.proxyHandle (fun _ => Except.ok
        ({ status := 502, headers := [("a", "b")], body := [9] } : Proxy.UpResp))
        "http://u:9000" "/api"
        { method := "GET", path := "/api/users/42", headers := [], body := [7] } =
      Except.ok { status := 502, headers := [("a", "b")], body := [9] } :=
  ⟨(c8_proxy_forwarding (fun _ => Except.ok
      ({ status := 502, headers := [("a", "b")], body := [9] } : Proxy.UpResp))
      "http://u:9000" "/api"
      { method := "GET", path := "/api/users/42", headers := [], body := [7] }
      { status := 502, headers := [("a", "b")], body := [9] }
      (by decide)).2.2.2.1 (by decide),
   (c8_proxy_forwarding (fun _ => Except.ok
      ({ status := 502, headers := [("a", "b")], body := [9] } : Proxy.UpResp))
      "http://u:9000" "/api"
      { method := "GET", path := "/api/users/42", headers := [], body := [7] }
      { status := 502, headers := [("a", "b")], body := [9] }
      (by decide)).2.2.2.2⟩

/-- C9 counterexample: an application whose iterator yields the two chunks
[97] and [98].  The assembled response body is only the first chunk [97],
not the concatenation [97, 98] of all yielded chunks. -/
theorem c9_counterexample :
    Wsgi.wsgiHandle "200 OK" [("Content-Type", "text/plain")] [[97], [98]] =
      Except.ok { status := 200, headers := [("content-type", "text/plain")],
                  body := [97] } ∧
    ([[97], [98]] : List (List Nat)).flatten = [97, 98] ∧
    ([97] : List Nat) ≠ [97, 98] := by decide

/-- C9 (amended): when the embedded application call succeeds the iterator
is fully drained, but the response body is only the first yielded chunk
(empty when the iterator yields nothing); for an application yielding at
most one chunk — such as one yielding exactly b"ok" — the body therefore
equals the concatenation of all yielded chunks. -/
theorem c9_wsgi_body (sl : String) (hdrs : List (String × String))
    (chunks : List (List Nat)) (r : StaticFiles.Resp)
    (hok : Wsgi.wsgiHandle sl hdrs chunks = Except.ok r) :
    r.body = (chunks.head?).getD [] ∧
    (chunks.length ≤ 1 → r.body = chunks.flatten) := by
  have hbody : r.body = (chunks.head?).getD [] := by
    rcases hft : Wsgi.firstToken sl.data with _ | tok
    · simp [Wsgi.wsgiHandle, hft] at hok
    · rcases hpc : Wsgi.parseStatusCode tok with _ | code
      · simp [Wsgi.wsgiHandle, hft, hpc] at hok
      · simp only [Wsgi.wsgiHandle, hft, hpc, Except.ok.injEq] at hok
        rw [← hok]
  refine ⟨hbody, fun hlen => ?_⟩
  match chunks, hlen with
  | [], _ => simpa using hbody
  | [c], _ => simpa using hbody

/-- C9 witness: an application yielding the single chunk b"ok" produces the
body "ok", the concatenation of its chunks. -/
theorem c9_wsgi_body_witness :
    ({ status := 200, headers := [("content-type", "text/plain")],
       body := [111, 107] } : StaticFiles.Resp).body =
      ([[111, 107]] : List (List Nat)).flatten :=
  (c9_wsgi_body "200 OK" [("Content-Type", "text/plain")] [[111, 107]]
    { status := 200, headers := [("content-type", "text/plain")],
      body := [111, 107] } (by decide)).2 (by decide)

/-- C10: the index file is fixed at construction — `StaticPath::new`
records the first entry of `index_files` that exists in the
construction-time filesystem snapshot (and records nothing when
`index_files` is absent); `serve_index_file` looks only at the recorded
name, serving `directory/<recorded>` out of the request-time snapshot, and
fails with `NotFound` whenever nothing was recorded, whatever index files
exist by then. -/
theorem c10_index_file_fixed (l : List String) (directory : String)
    (fs fs2 fs3 : IndexFile.Fs) (f : String) (c : List Nat) :
    IndexFile.newIndexFile (some l) directory fs =
      IndexFile.firstExisting fs directory l ∧
    IndexFile.newIndexFile none directory fs = none ∧
    (fs2.content (IndexFile.joinPath directory f) =
        fs3.content (IndexFile.joinPath directory f) →
      IndexFile.serve_index_file (some f) directory fs2 =
        IndexFile.serve_index_file (some f) directory fs3) ∧
    (fs2.content (IndexFile.joinPath directory f) = some c →
      IndexFile.serve_index_file (some f) directory fs2 =
        Except.ok (StaticFiles.fullResp c)) ∧
    IndexFile.serve_index_file none directory fs2 =
      Except.error StaticFiles.FileErr.notFound := by
  refine ⟨find?_eq_firstExisting fs directory l, rfl, ?_, ?_, rfl⟩
  · intro hsame
    simp [IndexFile.serve_index_file, hsame]
  · intro hc
    simp [IndexFile.serve_index_file, hc, StaticFiles.serve_file]

/-- C10 witness: a concrete construction snapshot holding only the second
candidate, a request-time snapshot that serves it, and a path constructed
without index files that keeps failing NotFound even when index files exist
at request time. -/
theorem c10_index_file_fixed_witness :
    IndexFile.newIndexFile (some ["a.html", "b.html"]) "/www"
        { pathExists := fun p => p = "/www/b.html",
          content := fun _ => none } =
      IndexFile.firstExisting
        { pathExists := fun p => p = "/www/b.html", content := fun _ => none }
        "/www" ["a.html", "b.html"] ∧
    IndexFile.serve_index_file (some "b.html") "/www"
        { pathExists := fun _ => true,
          content := fun p => if p = "/www/b.html" then some [9] else none } =
      Except.ok (StaticFiles.fullResp [9]) ∧
    IndexFile.serve_index_file none "/www"
        { pathExists := fun _ => true,
          content := fun p => if p = "/www/b.html" then some [9] else none } =
      Except.error StaticFiles.FileErr.notFound :=
  ⟨(c10_index_file_fixed ["a.html", "b.html"] "/www"
      { pathExists := fun p => p = "/www/b.html", content := fun _ => none }
      { pathExists := fun _ => true,
        content := fun p => if p = "/www/b.html" then some [9] else none }
      { pathExists := fun _ => true,
        content := fun p => if p = "/www/b.html" then some [9] else none }
      "b.html" [9]).1,
   (c10_index_file_fixed ["a.html", "b.html"] "/www"
      { pathExists := fun p => p = "/www/b.html", content := fun _ => none }
      { pathExists := fun _ => true,
        content := fun p => if p = "/www/b.html" then some [9] else none }
      { pathExists := fun _ => true,
        content := fun p => if p = "/www/b.html" then some [9] else none }
      "b.html" [9]).2.2.2.1 (by decide),
   (c10_index_file_fixed ["a.html", "b.html"] "/www"
      { pathExists := fun p => p = "/www/b.html", content := fun _ => none }
      { pathExists := fun _ => true,
        content := fun p => if p = "/www/b.html" then some [9] else none }
      { pathExists := fun _ => true,
        content := fun p => if p = "/www/b.html" then some [9] else none }
      "b.html" [9]).2.2.2.2⟩
